import Mathlib

/-!
Shallow embedding of `src/application.py` (FocusTimer v9): the adaptive
floating display subsystem.  Python integers are modelled as `Nat`/`Int`,
Python floats appearing in the font-fit arithmetic as exact rationals
(`ℚ`; the constants 0.45, 0.80, 0.5 are treated as the rationals 45/100,
80/100, 5/10), `int(...)` truncation toward zero as `pyInt`, dictionaries
as association lists, and fallible operations (image decode, file write)
as `Option`-valued oracles / boolean outcomes.
-/

namespace FocusTimer

/-- Python `int(q)`: truncation toward zero. -/
def pyInt (q : ℚ) : ℤ := if 0 ≤ q then ⌊q⌋ else ⌈q⌉

/-- From `_auto_font_minimal_by_wh` (src/application.py:1125-1131):
`n = max(1, len(text or "00:00:00"))` — an empty `text` is falsy in Python,
so the default string `"00:00:00"` (length 8) is measured instead. -/
def fontTextLen (text : String) : ℕ :=
  max 1 (if text = "" then ("00:00:00" : String).length else text.length)

/-- `_auto_font_minimal_by_wh(self, w, h, text)` (src/application.py:1125-1131):
`by_h = h * 0.45`, `by_w = (w * 0.80) / n`, `size = int(min(by_h, by_w))`,
`return max(24, min(280, size))`. -/
def autoFontMinimalByWh (w h : ℕ) (text : String) : ℤ :=
  let n : ℚ := fontTextLen text
  let byH : ℚ := (h : ℚ) * (45 / 100)
  let byW : ℚ := ((w : ℚ) * (80 / 100)) / n
  let size : ℤ := pyInt (min byH byW)
  max 24 (min 280 size)

/-- The font-fit formula exactly as the spec states it (spec.md §4.3, §8):
`clamp(min(h*0.45, (w*0.80)/max(1,len(text))), 24, 280)` taken as an
integer point size (floor).  Written from the spec's words, for comparison
with `autoFontMinimalByWh`. -/
def specFontFit (w h : ℕ) (text : String) : ℤ :=
  let n : ℚ := max 1 (text.length : ℚ)
  ⌊max (24 : ℚ) (min 280 (min ((h : ℚ) * (45 / 100)) (((w : ℚ) * (80 / 100)) / n)))⌋

/-- State owned by the minimal-panel controller that the geometry throttle
uses: `self._last_min_h` (initialised to 0 on the first configure event),
`self._last_min_wallpaper_size` (initialised to `(0,0)` in `__init__`), and a
log of the viewport sizes at which the wallpaper was actually (re)composited.
We assume a wallpaper source path resolves and PIL is available, so the
composite branch of `_draw_min_wallpaper` runs. -/
structure MinPanelState where
  lastMinH : ℕ
  lastWallSize : ℕ × ℕ
  composites : List (ℕ × ℕ)
deriving DecidableEq, Repr

/-- `_draw_min_wallpaper(self, force=False)` (src/application.py:1012-1039),
reduced to its throttle gate and its composite effect at viewport `(w, h)`:
`if not force and (w,h) == self._last_min_wallpaper_size: return`, else record
the new size and composite. -/
def drawMinWallpaper (force : Bool) (w h : ℕ) (st : MinPanelState) : MinPanelState :=
  if force = false ∧ (w, h) = st.lastWallSize then st
  else { st with lastWallSize := (w, h), composites := st.composites ++ [(w, h)] }

/-- `_on_minimal_configure(self, e)` (src/application.py:993-1006): if the
event height equals `_last_min_h`, do nothing; otherwise store the new height,
refit the font and call `_draw_min_wallpaper()` (no `force`). -/
def onMinimalConfigure (st : MinPanelState) (e : ℕ × ℕ) : MinPanelState :=
  if e.2 = st.lastMinH then st
  else drawMinWallpaper false e.1 e.2 { st with lastMinH := e.2 }

/-- `_open_minimal` (src/application.py:872-931): restore size `(mw, mh)` and
end with the initial `_draw_min_wallpaper(force=True)`. -/
def openMinimalPanel (mw mh : ℕ) : MinPanelState :=
  drawMinWallpaper true mw mh { lastMinH := 0, lastWallSize := (0, 0), composites := [] }

/-- A sequence of Configure events, processed in order. -/
def runConfigures (st : MinPanelState) (evs : List (ℕ × ℕ)) : MinPanelState :=
  evs.foldl onMinimalConfigure st

/-- An RGB pixel as produced by PIL's `convert("RGB")`: one byte per channel. -/
def Pixel : Type := Fin 256 × Fin 256 × Fin 256

/-- The fixed neutral fallback color of `avg_color_hex` (src/application.py:177). -/
def fallbackColor : String := "#f0f0f3"

/-- One lowercase hex digit, as produced by Python's `%x` for 0 ≤ n < 16. -/
def hexDigit (n : ℕ) : Char :=
  if n < 10 then Char.ofNat (48 + n) else Char.ofNat (87 + n)

/-- Python `f"{n:02x}"` for a channel value `n < 256`: two lowercase hex digits. -/
def byteHex (n : ℕ) : String := String.mk [hexDigit (n / 16), hexDigit (n % 16)]

/-- `f"#{r:02x}{g:02x}{b:02x}"` (src/application.py:192). -/
def rgbHex (r g b : ℕ) : String := "#" ++ byteHex r ++ byteHex g ++ byteHex b

/-- `sum(p[i] for p in px) // len(px)` (src/application.py:189-191). -/
def avgOfChannel (px : List Pixel) (f : Pixel → ℕ) : ℕ := (px.map f).sum / px.length

/-- The hex color computed from a decoded pixel list (src/application.py:189-192). -/
def avgHex (px : List Pixel) : String :=
  rgbHex (avgOfChannel px fun p => (p.1 : ℕ))
    (avgOfChannel px fun p => (p.2.1 : ℕ))
    (avgOfChannel px fun p => (p.2.2 : ℕ))

/-- The runtime environment `avg_color_hex` observes: whether PIL imported
(`Image is not None`), which paths exist (`os.path.exists`), and the image
decoder — `Image.open(path)`, `convert("RGB")`, `resize((40, 40))`,
`getdata()` — where `none` models a raised decode/IO exception. -/
structure ImageEnv where
  pilAvailable : Bool
  pathExists : String → Bool
  decode : String → Option (List Pixel)

/-- Result of one `avg_color_hex` call: the returned color, the resulting
`wallpaper_color_cache` contents, and how many image decodes the call made. -/
structure SampleOutcome where
  color : String
  cache : List (String × String)
  decodes : ℕ

/-- `avg_color_hex(path, fallback="#f0f0f3", data)` (src/application.py:177-197)
with the data store passed in.  `path = ""` models a falsy path (`not path`).
The cache is consulted only after the existence/PIL guard; a decode failure
(or an empty pixel list, whose mean would divide by zero) is caught by the
`except` and yields the fallback with no cache write. -/
def avgColorHex (env : ImageEnv) (path : String) (cache : List (String × String)) :
    SampleOutcome :=
  if env.pilAvailable = false ∨ path = "" ∨ env.pathExists path = false then
    ⟨fallbackColor, cache, 0⟩
  else
    match cache.lookup path with
    | some c => ⟨c, cache, 0⟩
    | none =>
      match env.decode path with
      | none => ⟨fallbackColor, cache, 1⟩
      | some px =>
        if px.length = 0 then ⟨fallbackColor, cache, 1⟩
        else ⟨avgHex px, (path, avgHex px) :: cache, 1⟩

/-- A concrete environment for the C3 witness: every path exists and decodes
to a single mid-gray pixel. -/
def sampleEnvA : ImageEnv :=
  ⟨true, fun _ => true, fun _ => some [((16 : Fin 256), (32 : Fin 256), (48 : Fin 256))]⟩

/-- `c` is one of the lowercase hex digit characters 0-9, a-f. -/
def isHexDigitChar (c : Char) : Bool :=
  (decide (48 ≤ c.toNat) && decide (c.toNat ≤ 57)) ||
    (decide (97 ≤ c.toNat) && decide (c.toNat ≤ 102))

/-- `s` has the shape "#rrggbb": 7 characters, a leading '#', six lowercase
hex digits. -/
def isHexColor (s : String) : Bool :=
  decide (s.length = 7) && decide (s.data.take 1 = ['#']) &&
    (s.data.drop 1).all isHexDigitChar

/-- `self._mode`: "countdown" or "countup". -/
inductive TimerMode
  | countdown
  | countup
deriving DecidableEq, Repr

/-- One entry of `data["sessions"]` (src/application.py:836-841); timestamps
are modelled as integer seconds, `startIso = now - seconds`, `endIso = now`. -/
structure SessionRec where
  task : String
  seconds : ℕ
  startIso : ℤ
  endIso : ℤ
deriving DecidableEq, Repr

/-- Timer-engine state: `_timer_running`, `_timer_paused`, mode and countdown
target, the seconds shown on the timer label, the `beep`/`tasks`/`sessions`
entries of the data store, the three control buttons, and a count of alarm
side effects (`_play_alarm` calls). -/
structure TimerEngineState where
  running : Bool
  paused : Bool
  mode : TimerMode
  countdownSeconds : ℕ
  shownSeconds : ℕ
  beep : Bool
  taskVar : String
  tasks : List (String × ℕ)
  sessions : List SessionRec
  btnStartEnabled : Bool
  btnPauseEnabled : Bool
  btnStopEnabled : Bool
  alarmsFired : ℕ
deriving DecidableEq, Repr

/-- `k = self.task_var.get() if ... in self.data["tasks"] else next(iter(...))`
(src/application.py:833): the selected task if present, else the first task. -/
def chooseTask (st : TimerEngineState) : String :=
  match st.tasks.lookup st.taskVar with
  | some _ => st.taskVar
  | none => ((st.tasks.head?).map Prod.fst).getD ""

/-- `data["tasks"][k]["total"] += used_seconds` (src/application.py:834). -/
def addTotal (k : String) (used : ℕ) : List (String × ℕ) → List (String × ℕ)
  | [] => []
  | (n, t) :: rest => if n = k then (n, t + used) :: rest else (n, t) :: addTotal k used rest

/-- `_finish_session(self, used_seconds)` (src/application.py:827-843): clear
the running/paused flags, reset the three buttons, play the alarm if `beep`
is set, and — only when `used_seconds > 0` and the task dict is nonempty —
add the time to a task and append a session record to the persisted store;
finally render "00:00:00". -/
def finishSession (now : ℤ) (used : ℕ) (st : TimerEngineState) : TimerEngineState :=
  let st1 : TimerEngineState :=
    { st with
      running := false
      paused := false
      btnStartEnabled := true
      btnPauseEnabled := false
      btnStopEnabled := false
      alarmsFired := if st.beep then st.alarmsFired + 1 else st.alarmsFired }
  let st2 : TimerEngineState :=
    if 0 < used ∧ st1.tasks ≠ [] then
      { st1 with
        tasks := addTotal (chooseTask st1) used st1.tasks
        sessions := st1.sessions ++ [⟨chooseTask st1, used, now - (used : ℤ), now⟩] }
    else st1
  { st2 with shownSeconds := 0 }

/-- The elapsed seconds `stop_timer` computes (src/application.py:822-825): it
parses the shown "%H:%M:%S" label back to seconds (hence mod 86400), subtracts
from the countdown target in countdown mode, and clamps at 0. -/
def finalElapsed (st : TimerEngineState) : ℕ :=
  let shown : ℤ := (st.shownSeconds : ℤ) % 86400
  let used : ℤ := match st.mode with
    | TimerMode.countdown => (st.countdownSeconds : ℤ) - shown
    | TimerMode.countup => shown
  (max 0 used).toNat

/-- `stop_timer(self)` (src/application.py:820-825): a no-op unless running;
otherwise compute the final elapsed seconds and finish the session. -/
def stopTimer (now : ℤ) (st : TimerEngineState) : TimerEngineState :=
  if st.running = false then st
  else finishSession now (finalElapsed st) st

/-- A running countdown stopped immediately (shown = full target, so the final
elapsed seconds is 0) with the beep setting off. -/
def timerStopCx : TimerEngineState :=
  { running := true, paused := false, mode := TimerMode.countdown,
    countdownSeconds := 1500, shownSeconds := 1500, beep := false, taskVar := "A",
    tasks := [("A", 0)], sessions := [], btnStartEnabled := false,
    btnPauseEnabled := true, btnStopEnabled := true, alarmsFired := 0 }

/-- A paused countdown with beep enabled, 600 of 1500 seconds remaining shown. -/
def timerStopWit : TimerEngineState :=
  { running := true, paused := true, mode := TimerMode.countdown,
    countdownSeconds := 1500, shownSeconds := 900, beep := true, taskVar := "A",
    tasks := [("A", 10)], sessions := [], btnStartEnabled := false,
    btnPauseEnabled := true, btnStopEnabled := true, alarmsFired := 0 }

/-- The handlers `_open_minimal` binds on the minimal window
(src/application.py:921-928). -/
inductive MinHandler
  | closeMinimal
  | startDrag
  | dragSmooth
  | saveMinimalPos
  | recalcFontAfterMove
  | ctrlWheelResize
  | minimalConfigureH
deriving DecidableEq, Repr

/-- Tk `widget.bind(sequence, func)` without `add='+'`: it REPLACES any
handler previously bound to the same sequence on that widget. -/
def bindEvent (seq : String) (h : MinHandler) (tbl : List (String × MinHandler)) :
    List (String × MinHandler) :=
  (seq, h) :: tbl.filter fun p => p.1 != seq

/-- The `bind` calls of `_open_minimal` in source order
(src/application.py:921-928); the later `<ButtonRelease-1>` bind (line 925)
replaces the earlier one (line 924). -/
def openMinimalBindings : List (String × MinHandler) :=
  bindEvent "<Configure>" MinHandler.minimalConfigureH
    (bindEvent "<Control-MouseWheel>" MinHandler.ctrlWheelResize
      (bindEvent "<ButtonRelease-1>" MinHandler.recalcFontAfterMove
        (bindEvent "<ButtonRelease-1>" MinHandler.saveMinimalPos
          (bindEvent "<B1-Motion>" MinHandler.dragSmooth
            (bindEvent "<Button-1>" MinHandler.startDrag
              (bindEvent "<Double-1>" MinHandler.closeMinimal []))))))

/-- Pointer/drag state: the window position (`winfo_x`, `winfo_y`), the drag
offset `self._drag_off`, and the persisted `data["minimal_pos"]`. -/
structure DragState where
  winPos : ℤ × ℤ
  dragOff : ℤ × ℤ
  storedPos : Option (ℤ × ℤ)
deriving DecidableEq, Repr

inductive PointerEvent
  | press (x y : ℤ)
  | move (x y : ℤ)
  | release
deriving DecidableEq, Repr

/-- `_start_drag(self, e)` (src/application.py:966): record the offset. -/
def startDragH (x y : ℤ) (st : DragState) : DragState := { st with dragOff := (x, y) }

/-- `_on_drag_smooth(self, e)` (src/application.py:967-971):
`nx = winfo_x() + (e.x - off_x)`, `ny = winfo_y() + (e.y - off_y)`. -/
def onDragSmooth (x y : ℤ) (st : DragState) : DragState :=
  { st with winPos := (st.winPos.1 + (x - st.dragOff.1), st.winPos.2 + (y - st.dragOff.2)) }

/-- `_save_minimal_pos` (src/application.py:973-983): writes the current
window position into `data["minimal_pos"]` (and then refits the font). -/
def saveMinimalPosH (st : DragState) : DragState := { st with storedPos := some st.winPos }

/-- `_recalc_font_after_move` (src/application.py:1133-1143): refits the label
font only; touches neither the window position nor `data["minimal_pos"]`. -/
def recalcFontAfterMoveH (st : DragState) : DragState := st

def runMinHandler : MinHandler → PointerEvent → DragState → DragState
  | MinHandler.startDrag, PointerEvent.press x y, st => startDragH x y st
  | MinHandler.dragSmooth, PointerEvent.move x y, st => onDragSmooth x y st
  | MinHandler.saveMinimalPos, PointerEvent.release, st => saveMinimalPosH st
  | MinHandler.recalcFontAfterMove, PointerEvent.release, st => recalcFontAfterMoveH st
  | _, _, st => st

/-- Dispatch one pointer event to the handler bound to its Tk sequence. -/
def dispatchPointer (tbl : List (String × MinHandler)) (st : DragState) :
    PointerEvent → DragState
  | PointerEvent.press x y =>
    match tbl.lookup "<Button-1>" with
    | some h => runMinHandler h (PointerEvent.press x y) st
    | none => st
  | PointerEvent.move x y =>
    match tbl.lookup "<B1-Motion>" with
    | some h => runMinHandler h (PointerEvent.move x y) st
    | none => st
  | PointerEvent.release =>
    match tbl.lookup "<ButtonRelease-1>" with
    | some h => runMinHandler h PointerEvent.release st
    | none => st

def runPointerEvents (tbl : List (String × MinHandler)) (st : DragState)
    (evs : List PointerEvent) : DragState :=
  evs.foldl (fun s e => dispatchPointer tbl s e) st

/-- The ASCII whitespace characters Python's `str.strip()` removes. -/
def isPySpace (c : Char) : Bool :=
  (c == ' ') || (c == '\t') || (c == '\n') || (c == '\r') ||
    (c.toNat == 11) || (c.toNat == 12)

/-- Python `s.strip()`. -/
def pyStrip (s : String) : String :=
  String.mk (((s.data.dropWhile isPySpace).reverse.dropWhile isPySpace).reverse)

/-- Notes state: the edit region's text, the in-memory draft
(`data["minimal_notes_memory"]`), the configured save path
(`data["notes_save_path"]`), the blocks appended to the notes file, and
counters for warning and error dialogs shown. -/
structure NotesState where
  editText : String
  draft : String
  savePath : Option String
  fileBlocks : List String
  warnings : ℕ
  errors : ℕ
deriving DecidableEq, Repr

/-- `_save_notes_to_file(self)` (src/application.py:1084-1100), assuming the
notes region exists: strip the edit text, store it as the in-memory draft and
persist; if a save path is configured, append `[ts]\ntxt\n\n` to the file and
clear the edit region on success (`writeOk`), or show an error dialog on write
failure; with no path, show a warning dialog and leave the edit region. -/
def saveNotesToFile (writeOk : Bool) (ts : String) (st : NotesState) : NotesState :=
  let txt := pyStrip st.editText
  let st1 : NotesState := { st with draft := txt }
  match st1.savePath with
  | some _ =>
    if writeOk then
      { st1 with
        fileBlocks := st1.fileBlocks ++ ["[" ++ ts ++ "]\n" ++ txt ++ "\n\n"]
        editText := "" }
    else { st1 with errors := st1.errors + 1 }
  | none => { st1 with warnings := st1.warnings + 1 }

/-- The stored fit-percent settings the two compositors read:
`data["wallpaper_fit_pct"]` and `data["wallpaper_min_fit_pct"]`; a stored
value may be out of range. -/
structure WallpaperFit where
  wallpaperFitPct : ℤ
  wallpaperMinFitPct : ℤ
deriving DecidableEq, Repr

/-- `_draw_timer_wallpaper` (src/application.py:395-414): `w = max(1, ...)`,
`h = max(1, ...)`, `short = min(w, h) * max(10, min(fit_pct, 100)) // 100`.
Both operands of `//` are nonnegative here, so Int division agrees with
Python's floor division. -/
def timerWallpaperShort (d : WallpaperFit) (w h : ℕ) : ℤ :=
  let fitPct := d.wallpaperFitPct
  (min (max 1 (w : ℤ)) (max 1 (h : ℤ))) * (max 10 (min fitPct 100)) / 100

/-- `_draw_min_wallpaper` (src/application.py:1015, 1027-1028): the same
computation on the minimal panel with `wallpaper_min_fit_pct`. -/
def minWallpaperShort (d : WallpaperFit) (w h : ℕ) : ℤ :=
  let fitPct := d.wallpaperMinFitPct
  (min (max 1 (w : ℤ)) (max 1 (h : ℤ))) * (max 10 (min fitPct 100)) / 100

/-- The bounding-box formula as the spec states it (spec.md §4.2 step 4):
`shortSide = min(viewportW, viewportH) * clamp(fitPercent, 10, 100) / 100`. -/
def specShortSide (vw vh : ℕ) (fitPct : ℤ) : ℤ :=
  (min (vw : ℤ) (vh : ℤ)) * (max 10 (min fitPct 100)) / 100

/-- One modifier+wheel notch: `e.delta > 0` grows, `e.delta < 0` shrinks. -/
inductive WheelGesture
  | grow
  | shrink
deriving DecidableEq, Repr

/-- `_ctrl_wheel_resize_min(self, e)` (src/application.py:985-991):
`step = 20 if e.delta > 0 else -20`; `mw = max(280, mw + step)`;
`mh = max(160, mh + int(step * 0.5))`; the result is both stored in
`data["minimal_size"]` and applied as the window geometry. -/
def ctrlWheelResizeMin (g : WheelGesture) (size : ℤ × ℤ) : ℤ × ℤ :=
  let step : ℤ := match g with
    | WheelGesture.grow => 20
    | WheelGesture.shrink => -20
  (max 280 (size.1 + step), max 160 (size.2 + pyInt ((step : ℚ) * (5 / 10))))

/-- A sequence of wheel notches applied in order. -/
def runWheelGestures (size : ℤ × ℤ) (gs : List WheelGesture) : ℤ × ℤ :=
  gs.foldl (fun s g => ctrlWheelResizeMin g s) size

lemma floor_min_intCast (x : ℚ) (c : ℤ) : ⌊min x (c : ℚ)⌋ = min ⌊x⌋ c := by
  rcases le_total x (c : ℚ) with hxc | hxc
  · rw [min_eq_left hxc, min_eq_left]
    calc ⌊x⌋ ≤ ⌊(c : ℚ)⌋ := Int.floor_le_floor hxc
    _ = c := Int.floor_intCast c
  · rw [min_eq_right hxc, Int.floor_intCast, min_eq_right]
    exact Int.le_floor.mpr hxc

lemma floor_max_intCast (x : ℚ) (c : ℤ) : ⌊max x (c : ℚ)⌋ = max ⌊x⌋ c := by
  rcases le_total x (c : ℚ) with hxc | hxc
  · rw [max_eq_right hxc, Int.floor_intCast, max_eq_right]
    calc ⌊x⌋ ≤ ⌊(c : ℚ)⌋ := Int.floor_le_floor hxc
    _ = c := Int.floor_intCast c
  · rw [max_eq_left hxc, max_eq_left]
    exact Int.le_floor.mpr hxc

lemma len_default_text : ("00:00:00" : String).length = 8 := rfl

lemma floor_clamp (x : ℚ) : ⌊max (24 : ℚ) (min 280 x)⌋ = max 24 (min 280 ⌊x⌋) := by
  have h280 : ((280 : ℤ) : ℚ) = (280 : ℚ) := by norm_num
  have h24 : ((24 : ℤ) : ℚ) = (24 : ℚ) := by norm_num
  rw [max_comm (24 : ℚ), min_comm (280 : ℚ), ← h280, ← h24,
    floor_max_intCast, floor_min_intCast]
  rw [max_comm, min_comm]

/-- Claim C1, counterexample: for the empty text string the code measures the
default string `"00:00:00"` (length 8), not `max(1, length(text)) = 1`, so at
`w = h = 1000` the code returns 100 while the claimed formula gives 280. -/
theorem autoFont_empty_text_counterexample :
    autoFontMinimalByWh 1000 1000 "" = 100 ∧ specFontFit 1000 1000 "" = 280 ∧
      autoFontMinimalByWh 1000 1000 "" ≠ specFontFit 1000 1000 "" := by
  refine ⟨?_, ?_, ?_⟩
  · norm_num [autoFontMinimalByWh, fontTextLen, pyInt, len_default_text]
  · norm_num [specFontFit]
  · norm_num [autoFontMinimalByWh, specFontFit, fontTextLen, pyInt, len_default_text]

/-- Claim C1 (amended: restricted to nonempty text; for an empty text the code
uses the length 8 of the default string `"00:00:00"`): for every viewport
`w > 0`, `h > 0` and nonempty text, `_auto_font_minimal_by_wh` returns exactly
`clamp(min(h*0.45, (w*0.80)/max(1,length(text))), 24, 280)` as an integer
(floored) point size. -/
theorem autoFont_matches_spec (w h : ℕ) (text : String)
    (hw : 0 < w) (hh : 0 < h) (ht : text ≠ "") :
    autoFontMinimalByWh w h text = specFontFit w h text := by
  have hx : (0 : ℚ) ≤
      min ((h : ℚ) * (45 / 100)) (((w : ℚ) * (80 / 100)) / ((max 1 (text.length : ℚ)))) := by
    apply le_min
    · positivity
    · apply div_nonneg
      · positivity
      · exact le_trans zero_le_one (le_max_left 1 _)
  simp only [autoFontMinimalByWh, specFontFit, fontTextLen, if_neg ht]
  push_cast
  rw [pyInt, if_pos hx, floor_clamp]

/-- Witness for C1's amended theorem at the concrete input (560, 260, "00:00:00"). -/
theorem autoFont_matches_spec_witness :
    ("00:00:00" : String) ≠ "" ∧
      autoFontMinimalByWh 560 260 "00:00:00" = specFontFit 560 260 "00:00:00" :=
  ⟨by decide, autoFont_matches_spec 560 260 "00:00:00" (by norm_num) (by norm_num) (by decide)⟩

lemma configure_same_size (st : MinPanelState) (f : ℕ × ℕ) (hf : f = st.lastWallSize) :
    (onMinimalConfigure st f).composites = st.composites ∧
      (onMinimalConfigure st f).lastWallSize = st.lastWallSize := by
  obtain ⟨w, h⟩ := f
  by_cases h1 : h = st.lastMinH
  · simp [onMinimalConfigure, h1]
  · simp [onMinimalConfigure, drawMinWallpaper, h1, hf]

/-- Claim C2, counterexample: after opening at 560×260 (one forced composite),
the event sequence [(560,260), (600,260)] contains a size change to the
distinct size (600,260), yet triggers zero recomposites — the handler gates on
height alone, so a width-only change never reaches `_draw_min_wallpaper`.  The
claim demands exactly one recomposite for the distinct size (600,260). -/
theorem minConfigure_counterexample :
    (runConfigures (openMinimalPanel 560 260) [(560, 260), (600, 260)]).composites =
        [(560, 260)] ∧
      ((runConfigures (openMinimalPanel 560 260) [(560, 260), (600, 260)]).composites.count
          (600, 260) = 0) := by
  decide

/-- Claim C2 (amended: an event whose size equals the size at the last
composite triggers no recomposite, and a move-only sequence triggers zero; but
a recomposite occurs exactly when the event height differs from the previous
event's height AND the size differs from the last composited size — so
width-only size changes trigger no recomposite, rather than one per distinct
size). -/
theorem minConfigure_throttle (st : MinPanelState) (e : ℕ × ℕ) (evs : List (ℕ × ℕ)) :
    ((onMinimalConfigure st e).composites =
        if e.2 ≠ st.lastMinH ∧ e ≠ st.lastWallSize
        then st.composites ++ [e] else st.composites) ∧
      ((∀ f ∈ evs, f = st.lastWallSize) → (runConfigures st evs).composites = st.composites) := by
  constructor
  · obtain ⟨w, h⟩ := e
    by_cases h1 : h = st.lastMinH
    · simp [onMinimalConfigure, h1]
    · by_cases h2 : (w, h) = st.lastWallSize
      · simp [onMinimalConfigure, drawMinWallpaper, h1, h2]
      · simp [onMinimalConfigure, drawMinWallpaper, h1, h2]
  · induction evs generalizing st with
    | nil => intro _; rfl
    | cons f t ih =>
      intro hall
      have hf : f = st.lastWallSize := hall f (by simp)
      have h1 := configure_same_size st f hf
      show (runConfigures (onMinimalConfigure st f) t).composites = st.composites
      rw [ih (onMinimalConfigure st f) ?_, h1.1]
      intro g hg
      rw [h1.2]
      exact hall g (by simp [hg])

/-- Witness for C2's amended theorem: two move-only events at the opening size
560×260 leave the composite log unchanged. -/
theorem minConfigure_throttle_witness :
    (runConfigures (openMinimalPanel 560 260) [(560, 260), (560, 260)]).composites =
      (openMinimalPanel 560 260).composites :=
  (minConfigure_throttle (openMinimalPanel 560 260) (560, 260) [(560, 260), (560, 260)]).2
    (by decide)

/-- Claim C3: calling the sampler twice with the same valid (existing,
decodable, PIL available) path returns the identical color both times, and the
second call performs no image decode — the cache hit short-circuits decoding. -/
theorem sampler_cache_coherent (env : ImageEnv) (path : String)
    (cache : List (String × String)) (px : List Pixel)
    (hpil : env.pilAvailable = true) (hpath : path ≠ "")
    (hexi : env.pathExists path = true) (hdec : env.decode path = some px)
    (hne : px.length ≠ 0) :
    (avgColorHex env path (avgColorHex env path cache).cache).color
        = (avgColorHex env path cache).color ∧
      (avgColorHex env path (avgColorHex env path cache).cache).decodes = 0 := by
  have hguard : ¬(env.pilAvailable = false ∨ path = "" ∨ env.pathExists path = false) := by
    simp [hpil, hpath, hexi]
  rcases hcl : cache.lookup path with _ | c
  · simp only [avgColorHex, if_neg hguard, hcl, hdec, if_neg hne]
    simp [List.lookup]
  · simp only [avgColorHex, if_neg hguard, hcl]
    simp

/-- Witness for C3 at the concrete path "a.png" on an empty cache. -/
theorem sampler_cache_coherent_witness :
    (avgColorHex sampleEnvA "a.png" (avgColorHex sampleEnvA "a.png" []).cache).color
        = (avgColorHex sampleEnvA "a.png" []).color ∧
      (avgColorHex sampleEnvA "a.png" (avgColorHex sampleEnvA "a.png" []).cache).decodes = 0 :=
  sampler_cache_coherent sampleEnvA "a.png" []
    [((16 : Fin 256), (32 : Fin 256), (48 : Fin 256))] rfl (by decide) rfl rfl (by decide)

/-- Claim C4, counterexample: a path that still exists but has become
unreadable (its decode now fails) and that already has a cache entry returns
the cached color, not the fallback — the cache hit short-circuits before the
decode failure can be observed. -/
theorem sampler_fallback_counterexample :
    (avgColorHex ⟨true, fun _ => true, fun _ => none⟩ "img.png"
        [("img.png", "#102030")]).color = "#102030" ∧
      (avgColorHex ⟨true, fun _ => true, fun _ => none⟩ "img.png"
        [("img.png", "#102030")]).color ≠ fallbackColor := by
  constructor
  · rfl
  · decide

/-- Claim C4 (amended: for a missing/falsy path or with PIL unavailable the
sampler always returns "#f0f0f3" and leaves the cache unchanged; for an
unreadable path — decode failure — the same holds provided the path is not
already cached, since a cache hit returns the cached color before any decode
is attempted).  No exception reaches the caller in any of these cases (the
model is a total function; the code wraps the decode in try/except). -/
theorem sampler_fallback (env : ImageEnv) (path : String)
    (cache : List (String × String))
    (hfail : env.pilAvailable = false ∨ path = "" ∨ env.pathExists path = false ∨
      (env.decode path = none ∧ cache.lookup path = none)) :
    (avgColorHex env path cache).color = fallbackColor ∧
      (avgColorHex env path cache).cache = cache := by
  rcases hfail with h | h | h | ⟨hdec, hcl⟩
  · simp [avgColorHex, h]
  · simp [avgColorHex, h]
  · simp [avgColorHex, h]
  · by_cases hguard : env.pilAvailable = false ∨ path = "" ∨ env.pathExists path = false
    · simp [avgColorHex, if_pos hguard]
    · simp [avgColorHex, if_neg hguard, hcl, hdec]

/-- Witness for C4 at a nonexistent path on a nonempty cache. -/
theorem sampler_fallback_witness :
    (avgColorHex ⟨true, fun _ => false, fun _ => none⟩ "gone.png"
        [("x.png", "#000000")]).color = fallbackColor ∧
      (avgColorHex ⟨true, fun _ => false, fun _ => none⟩ "gone.png"
        [("x.png", "#000000")]).cache = [("x.png", "#000000")] :=
  sampler_fallback ⟨true, fun _ => false, fun _ => none⟩ "gone.png"
    [("x.png", "#000000")] (Or.inr (Or.inr (Or.inl rfl)))

lemma hexDigit_valid (n : ℕ) (hn : n < 16) : isHexDigitChar (hexDigit n) = true := by
  interval_cases n <;> decide

lemma byteHex_valid (n : ℕ) (hn : n ≤ 255) :
    (byteHex n).data.all isHexDigitChar = true := by
  have h1 : n / 16 < 16 := Nat.div_lt_of_lt_mul (by omega)
  have h2 : n % 16 < 16 := Nat.mod_lt _ (by norm_num)
  simp [byteHex, hexDigit_valid _ h1, hexDigit_valid _ h2]

lemma rgbHex_isHexColor (r g b : ℕ) (hr : r ≤ 255) (hg : g ≤ 255) (hb : b ≤ 255) :
    isHexColor (rgbHex r g b) = true := by
  have hr1 : isHexDigitChar (hexDigit (r / 16)) = true :=
    hexDigit_valid _ (Nat.div_lt_of_lt_mul (by omega))
  have hg1 : isHexDigitChar (hexDigit (g / 16)) = true :=
    hexDigit_valid _ (Nat.div_lt_of_lt_mul (by omega))
  have hb1 : isHexDigitChar (hexDigit (b / 16)) = true :=
    hexDigit_valid _ (Nat.div_lt_of_lt_mul (by omega))
  have hr2 : isHexDigitChar (hexDigit (r % 16)) = true :=
    hexDigit_valid _ (Nat.mod_lt _ (by norm_num))
  have hg2 : isHexDigitChar (hexDigit (g % 16)) = true :=
    hexDigit_valid _ (Nat.mod_lt _ (by norm_num))
  have hb2 : isHexDigitChar (hexDigit (b % 16)) = true :=
    hexDigit_valid _ (Nat.mod_lt _ (by norm_num))
  simp [isHexColor, rgbHex, byteHex, String.length, String.data_append,
    hr1, hr2, hg1, hg2, hb1, hb2]

lemma avgOfChannel_le (px : List Pixel) (f : Pixel → ℕ) (hf : ∀ p ∈ px, f p ≤ 255) :
    avgOfChannel px f ≤ 255 := by
  rcases eq_or_ne px.length 0 with h0 | h0
  · simp [avgOfChannel, h0]
  · have hsum : (px.map f).sum ≤ px.length * 255 := by
      calc (px.map f).sum ≤ (px.map f).length • 255 := by
            apply List.sum_le_card_nsmul
            intro x hx
            rcases List.mem_map.mp hx with ⟨p, hp, rfl⟩
            exact hf p hp
      _ = px.length * 255 := by simp [List.length_map, smul_eq_mul]
    calc avgOfChannel px f = (px.map f).sum / px.length := rfl
    _ ≤ (px.length * 255) / px.length := Nat.div_le_div_right hsum
    _ = 255 := Nat.mul_div_cancel_left 255 (Nat.pos_of_ne_zero h0)

/-- Claim C10: one `avg_color_hex` call either leaves the color cache exactly
unchanged (every fallback or cache-hit path returns before a write), or — only
after a successful nonempty decode — prepends exactly one entry whose value is
the computed average color, a valid 6-hex-digit "#rrggbb" string. -/
theorem cache_writes_valid (env : ImageEnv) (path : String)
    (cache : List (String × String)) :
    (avgColorHex env path cache).cache = cache ∨
      ∃ px, env.decode path = some px ∧ px.length ≠ 0 ∧
        (avgColorHex env path cache).cache = (path, avgHex px) :: cache ∧
        (avgColorHex env path cache).color = avgHex px ∧
        isHexColor (avgHex px) = true := by
  by_cases hguard : env.pilAvailable = false ∨ path = "" ∨ env.pathExists path = false
  · left; simp [avgColorHex, if_pos hguard]
  · rcases hcl : cache.lookup path with _ | c
    · rcases hdec : env.decode path with _ | px
      · left; simp [avgColorHex, if_neg hguard, hcl, hdec]
      · by_cases hlen : px.length = 0
        · left; simp [avgColorHex, if_neg hguard, hcl, hdec, hlen]
        · right
          refine ⟨px, rfl, hlen, ?_, ?_, ?_⟩
          · simp [avgColorHex, if_neg hguard, hcl, hdec, hlen]
          · simp [avgColorHex, if_neg hguard, hcl, hdec, hlen]
          · exact rgbHex_isHexColor _ _ _
              (avgOfChannel_le px _ fun p _ => p.1.is_le)
              (avgOfChannel_le px _ fun p _ => p.2.1.is_le)
              (avgOfChannel_le px _ fun p _ => p.2.2.is_le)
    · left; simp [avgColorHex, if_neg hguard, hcl]

/-- Claim C5, counterexample: stopping a running countdown whose display still
shows the full target (elapsed 0) with `beep` disabled transitions to Finished
but fires no alarm and appends no completed-session record, against the
claim's unconditional "triggers the alarm ... and emits a completed-session
record". -/
theorem stopTimer_counterexample :
    (stopTimer 1000 timerStopCx).running = false ∧
      (stopTimer 1000 timerStopCx).sessions = [] ∧
      (stopTimer 1000 timerStopCx).alarmsFired = 0 := by
  decide

/-- Claim C5 (amended: Stop from Running or Paused computes the final elapsed
seconds, clears the running/paused flags, resets the buttons, triggers the
alarm side effect only when the beep setting is enabled, and emits the
completed-session record (task, seconds, start, end) to the persisted store
only when the final elapsed seconds is positive and the task map is
nonempty). -/
theorem stopTimer_spec (now : ℤ) (st : TimerEngineState) (hrun : st.running = true) :
    (stopTimer now st).running = false ∧
      (stopTimer now st).paused = false ∧
      (stopTimer now st).btnStartEnabled = true ∧
      (stopTimer now st).btnPauseEnabled = false ∧
      (stopTimer now st).btnStopEnabled = false ∧
      (stopTimer now st).alarmsFired =
        (if st.beep then st.alarmsFired + 1 else st.alarmsFired) ∧
      (stopTimer now st).sessions =
        (if 0 < finalElapsed st ∧ st.tasks ≠ [] then
          st.sessions ++
            [⟨chooseTask st, finalElapsed st, now - (finalElapsed st : ℤ), now⟩]
        else st.sessions) := by
  have h : ¬(st.running = false) := by simp [hrun]
  by_cases hc : 0 < finalElapsed st ∧ st.tasks ≠ []
  · simp [stopTimer, if_neg h, finishSession, chooseTask, if_pos hc, hc]
  · simp [stopTimer, if_neg h, finishSession, chooseTask, if_neg hc, hc]

/-- Witness for C5's amended theorem at a concrete paused countdown state. -/
theorem stopTimer_spec_witness :
    (stopTimer 2000 timerStopWit).running = false ∧
      (stopTimer 2000 timerStopWit).paused = false ∧
      (stopTimer 2000 timerStopWit).btnStartEnabled = true ∧
      (stopTimer 2000 timerStopWit).btnPauseEnabled = false ∧
      (stopTimer 2000 timerStopWit).btnStopEnabled = false ∧
      (stopTimer 2000 timerStopWit).alarmsFired =
        (if timerStopWit.beep then timerStopWit.alarmsFired + 1
        else timerStopWit.alarmsFired) ∧
      (stopTimer 2000 timerStopWit).sessions =
        (if 0 < finalElapsed timerStopWit ∧ timerStopWit.tasks ≠ [] then
          timerStopWit.sessions ++
            [⟨chooseTask timerStopWit, finalElapsed timerStopWit,
              2000 - (finalElapsed timerStopWit : ℤ), 2000⟩]
        else timerStopWit.sessions) :=
  stopTimer_spec 2000 timerStopWit rfl

/-- Claim C6 (code bug): `_open_minimal` binds `_save_minimal_pos` to
`<ButtonRelease-1>` and then immediately rebinds the same sequence to the
font-recalc lambda without `add='+'`; the second bind replaces the first, so a
completed drag (press at (5,5), move to (50,50), release) moves the window
from (10,10) to (55,55) but leaves `data["minimal_pos"]` at its old value —
pointer-up does NOT persist the final position. -/
theorem dragRelease_does_not_persist :
    openMinimalBindings.lookup "<ButtonRelease-1>" = some MinHandler.recalcFontAfterMove ∧
      (runPointerEvents openMinimalBindings
          ⟨(10, 10), (0, 0), some (10, 10)⟩
          [PointerEvent.press 5 5, PointerEvent.move 50 50, PointerEvent.release]).winPos
        = (55, 55) ∧
      (runPointerEvents openMinimalBindings
          ⟨(10, 10), (0, 0), some (10, 10)⟩
          [PointerEvent.press 5 5, PointerEvent.move 50 50, PointerEvent.release]).storedPos
        = some (10, 10) := by
  decide

/-- Claim C7, counterexample: with a configured path and a successful write,
saving the edit text " note " clears the edit region but stores the STRIPPED
text "note" as the in-memory draft, which differs from the pre-save edit
text — the claim's "the in-memory draft equals the pre-save edit text" fails
whenever the edit text has leading/trailing whitespace. -/
theorem notesSave_counterexample :
    (saveNotesToFile true "2025-01-01" ⟨" note ", "", some "n.txt", [], 0, 0⟩).editText
        = "" ∧
      (saveNotesToFile true "2025-01-01" ⟨" note ", "", some "n.txt", [], 0, 0⟩).draft
        = "note" ∧
      (saveNotesToFile true "2025-01-01" ⟨" note ", "", some "n.txt", [], 0, 0⟩).draft
        ≠ " note " := by
  decide

/-- Claim C7 (amended: with a configured save path and a successful write the
edit region is emptied and the in-memory draft equals the pre-save edit text
STRIPPED of leading/trailing whitespace; with no configured path the edit
region is unchanged, a warning is produced, and the stripped text is likewise
stored as the draft). -/
theorem notesSave_spec (writeOk : Bool) (ts : String) (st : NotesState) :
    (st.savePath ≠ none → writeOk = true →
      (saveNotesToFile writeOk ts st).editText = "" ∧
        (saveNotesToFile writeOk ts st).draft = pyStrip st.editText) ∧
      (st.savePath = none →
        (saveNotesToFile writeOk ts st).editText = st.editText ∧
          (saveNotesToFile writeOk ts st).warnings = st.warnings + 1 ∧
          (saveNotesToFile writeOk ts st).draft = pyStrip st.editText) := by
  rcases hp : st.savePath with _ | p
  · refine ⟨fun hne _ => absurd rfl hne, fun _ => ?_⟩
    simp [saveNotesToFile, hp]
  · refine ⟨fun _ hok => ?_, fun heq => absurd heq (by simp)⟩
    simp [saveNotesToFile, hp, hok]

/-- Witness for C7's amended theorem: saving "hello" with path "n.txt". -/
theorem notesSave_spec_witness :
    (saveNotesToFile true "ts" ⟨"hello", "", some "n.txt", [], 0, 0⟩).editText = "" ∧
      (saveNotesToFile true "ts" ⟨"hello", "", some "n.txt", [], 0, 0⟩).draft =
        pyStrip "hello" :=
  (notesSave_spec true "ts" ⟨"hello", "", some "n.txt", [], 0, 0⟩).1 (by simp) rfl

/-- Claim C8: for every stored fitPercent (including out-of-range values) and
every viewport (w, h) with w, h ≥ 1, both composite paths clamp the
fit-percent into [10, 100] at the point of use and compute
`shortSide = min(w, h) * clamp(fitPercent, 10, 100) / 100` in integer
arithmetic. -/
theorem shortSide_clamped (d : WallpaperFit) (w h : ℕ) (hw : 1 ≤ w) (hh : 1 ≤ h) :
    10 ≤ max 10 (min d.wallpaperFitPct 100) ∧
      max 10 (min d.wallpaperFitPct 100) ≤ 100 ∧
      10 ≤ max 10 (min d.wallpaperMinFitPct 100) ∧
      max 10 (min d.wallpaperMinFitPct 100) ≤ 100 ∧
      timerWallpaperShort d w h = specShortSide w h d.wallpaperFitPct ∧
      minWallpaperShort d w h = specShortSide w h d.wallpaperMinFitPct := by
  have hw1 : max 1 (w : ℤ) = (w : ℤ) := max_eq_right (by exact_mod_cast hw)
  have hh1 : max 1 (h : ℤ) = (h : ℤ) := max_eq_right (by exact_mod_cast hh)
  refine ⟨le_max_left _ _, max_le (by norm_num) (min_le_right _ _),
    le_max_left _ _, max_le (by norm_num) (min_le_right _ _), ?_, ?_⟩
  · simp [timerWallpaperShort, specShortSide, hw1, hh1]
  · simp [minWallpaperShort, specShortSide, hw1, hh1]

/-- Witness for C8 at viewport 560×260 with out-of-range stored values 1000
and -5 (clamped to 100 and 10 respectively). -/
theorem shortSide_clamped_witness :
    10 ≤ max 10 (min (⟨1000, -5⟩ : WallpaperFit).wallpaperFitPct 100) ∧
      max 10 (min (⟨1000, -5⟩ : WallpaperFit).wallpaperFitPct 100) ≤ 100 ∧
      10 ≤ max 10 (min (⟨1000, -5⟩ : WallpaperFit).wallpaperMinFitPct 100) ∧
      max 10 (min (⟨1000, -5⟩ : WallpaperFit).wallpaperMinFitPct 100) ≤ 100 ∧
      timerWallpaperShort ⟨1000, -5⟩ 560 260 =
        specShortSide 560 260 (⟨1000, -5⟩ : WallpaperFit).wallpaperFitPct ∧
      minWallpaperShort ⟨1000, -5⟩ 560 260 =
        specShortSide 560 260 (⟨1000, -5⟩ : WallpaperFit).wallpaperMinFitPct :=
  shortSide_clamped ⟨1000, -5⟩ 560 260 (by norm_num) (by norm_num)

lemma ctrlWheel_bounds (g : WheelGesture) (size : ℤ × ℤ) :
    280 ≤ (ctrlWheelResizeMin g size).1 ∧ 160 ≤ (ctrlWheelResizeMin g size).2 :=
  ⟨le_max_left _ _, le_max_left _ _⟩

lemma runWheel_bounds (gs : List WheelGesture) (size : ℤ × ℤ) (h : gs ≠ []) :
    280 ≤ (runWheelGestures size gs).1 ∧ 160 ≤ (runWheelGestures size gs).2 := by
  induction gs generalizing size with
  | nil => exact absurd rfl h
  | cons g t ih =>
    cases t with
    | nil => exact ctrlWheel_bounds g size
    | cons g2 t2 => exact ih (ctrlWheelResizeMin g size) (by simp)

/-- Claim C9: each shrink notch decrements the stored width by the fixed step
20 and the height by half that step (10), clamped at the minimum; and after
every nonempty sequence of wheel gestures from any starting size, the stored
and applied panel size satisfies width ≥ 280 and height ≥ 160. -/
theorem wheelResize_clamp (size : ℤ × ℤ) (gs : List WheelGesture) (hgs : gs ≠ []) :
    ctrlWheelResizeMin WheelGesture.shrink size =
        (max 280 (size.1 - 20), max 160 (size.2 - 10)) ∧
      280 ≤ (runWheelGestures size gs).1 ∧ 160 ≤ (runWheelGestures size gs).2 := by
  refine ⟨?_, runWheel_bounds gs size hgs⟩
  have hhalf : pyInt (((-20 : ℤ) : ℚ) * (5 / 10)) = -10 := by
    have hm : (((-20 : ℤ) : ℚ) * (5 / 10)) = ((-10 : ℤ) : ℚ) := by norm_num
    rw [pyInt, hm, if_neg (by norm_num), Int.ceil_intCast]
  simp only [ctrlWheelResizeMin, hhalf]
  norm_num [sub_eq_add_neg]

/-- Witness for C9: one shrink notch from 290×165 clamps to the 280×160 floor. -/
theorem wheelResize_clamp_witness :
    ctrlWheelResizeMin WheelGesture.shrink ((290 : ℤ), (165 : ℤ)) =
        (max 280 ((290 : ℤ) - 20), max 160 ((165 : ℤ) - 10)) ∧
      280 ≤ (runWheelGestures (290, 165) [WheelGesture.shrink]).1 ∧
        160 ≤ (runWheelGestures (290, 165) [WheelGesture.shrink]).2 :=
  wheelResize_clamp (290, 165) [WheelGesture.shrink] (by simp)

end FocusTimer
